import Mathlib

/-!
Verification of the lighting / render-compositing engine of the 3D desk
portfolio (three.js r128 + GSAP 3.12.2, per the repository README).

The development shallowly embeds:
* `src/js/systems/lighting.js` — `LightingSystem` (day/night keyframe
  interpolation, glare materials, per-frame uniform refresh), over `ℚ`;
* the glare fragment shader built by `createGlareMaterial`, over `ℝ`;
* the outline-pass overlay replacement of `src/js/core/scene.js`;
* the hint scheduler of the interaction manager (idle timer, show/hide
  hint, GSAP tween bookkeeping).

JavaScript numbers are modelled as exact rationals (reals for the
shader); `null` fields as `Option`; in-place mutation as explicit state
passing.  The browser environment is modelled as follows: `setTimeout` /
`clearTimeout` keep a list of pending timer entries with fresh handles,
and GSAP's `gsap.to` appends a tween to the list of active tweens.  GSAP 3
tweens are created with the library default `overwrite: false`, so
creating a tween does NOT kill other active tweens on the same
target/property; every active tween keeps writing its target property on
each animation tick until its own duration elapses.
-/

namespace DeskPortfolio

/-- RGB color with rational channels, as stored in a `THREE.Color`
(r128: `setHex` stores raw `byte/255` channels, no color-space
conversion). -/
structure Color where
  r : ℚ
  g : ℚ
  b : ℚ
deriving Repr, DecidableEq

/-- `THREE.Color.setHex(hex)`: channels are the three bytes of `hex`
divided by 255. -/
def Color.setHex (hex : ℕ) : Color :=
  { r := ((hex / 65536 % 256 : ℕ) : ℚ) / 255
  , g := ((hex / 256 % 256 : ℕ) : ℚ) / 255
  , b := ((hex % 256 : ℕ) : ℚ) / 255 }

/-- `THREE.Color.copy(c1).lerp(c2, t)`: channel-wise
`c += (c2 - c) * t` starting from a copy of `c1`. -/
def Color.lerp (c1 c2 : Color) (t : ℚ) : Color :=
  { r := c1.r + (c2.r - c1.r) * t
  , g := c1.g + (c2.g - c1.g) * t
  , b := c1.b + (c2.b - c1.b) * t }

/-- One entry of `this.dayNightKeyframes`: `{ hour, color, intensity }`
(`color` is the raw hex literal). -/
structure Keyframe where
  hour : ℚ
  color : ℕ
  intensity : ℚ
deriving Repr, DecidableEq

/-- Placeholder used for out-of-range list reads (never reached on the
concrete table, which is non-empty). -/
def defaultKeyframe : Keyframe := ⟨0, 0, 0⟩

/-- The keyframe table built in the `LightingSystem` constructor
(`lighting.js` lines 33–42). -/
def dayNightKeyframes : List Keyframe :=
  [ ⟨0,  0x1a1a2e, 0.3⟩
  , ⟨5,  0x2a2a4e, 0.4⟩
  , ⟨7,  0xffaa77, 0.8⟩
  , ⟨10, 0xffeedd, 1.2⟩
  , ⟨16, 0xffeedd, 1.1⟩
  , ⟨19, 0xff9966, 0.7⟩
  , ⟨21, 0x1a1a2e, 0.35⟩
  , ⟨24, 0x1a1a2e, 0.3⟩ ]

/-- Strict sortedness (hence also no duplicates) of the table hours:
the well-formedness condition the spec asks `init()` to validate. -/
def hoursStrictlySorted : List Keyframe → Bool
  | a :: b :: rest => (a.hour < b.hour) && hoursStrictlySorted (b :: rest)
  | _ => true

/-- 3-component vector over `ℚ` (light / camera positions). -/
structure Vec3 where
  x : ℚ
  y : ℚ
  z : ℚ
deriving Repr, DecidableEq

/-- A fixed-size 4-slot array, as used by the glare uniforms
(`uLightPositions[4]`, `uLightColors[4]`, `uLightIntensities[4]`). -/
structure Slots4 (α : Type) where
  s0 : α
  s1 : α
  s2 : α
  s3 : α
deriving Repr, DecidableEq

/-- The uniform set of one glare `ShaderMaterial`
(`createGlareMaterial`, `lighting.js` lines 181–200). -/
structure GlareUniforms where
  uLightPositions : Slots4 Vec3
  uLightColors : Slots4 Color
  uLightIntensities : Slots4 ℚ
  uCameraPosition : Vec3
  uGlareIntensity : ℚ
  uGlareSharpness : ℚ
  uFresnelPower : ℚ
deriving Repr, DecidableEq

/-- The uniforms `createGlareMaterial(options)` builds (the defaults
`glareIntensity = 0.35`, `glareSharpness = 6.0`, `fresnelPower = 2.5`
are supplied by the caller of this definition when no options are
given). -/
def createGlareMaterial (glareIntensity glareSharpness fresnelPower : ℚ) :
    GlareUniforms :=
  { uLightPositions :=
      ⟨⟨-5, 8, 3⟩, ⟨2.5, 2, -1⟩, ⟨0, 0, 0⟩, ⟨0, 0, 0⟩⟩
  , uLightColors :=
      ⟨Color.setHex 0xffeedd, Color.setHex 0xffddaa,
       Color.setHex 0x000000, Color.setHex 0x000000⟩
  , uLightIntensities := ⟨0.22, 0.8, 0, 0⟩
  , uCameraPosition := ⟨0, 0, 0⟩
  , uGlareIntensity := glareIntensity
  , uGlareSharpness := glareSharpness
  , uFresnelPower := fresnelPower }

/-- A glare material with the default tuning knobs; also used as the
default value for indexed reads into the material registry. -/
def defaultGlare : GlareUniforms := createGlareMaterial 0.35 6 2.5

/-- The sun (`this.lights.main`) as mutated by the day/night cycle:
a `DirectionalLight`'s color and intensity. -/
structure DirLight where
  color : Color
  intensity : ℚ
deriving Repr, DecidableEq

/-- Observable state of a `LightingSystem` instance.  `Option` models the
`null` light references of the constructor; `envMapReady` models whether
`createEnvironmentMap` has assigned `this.envMap` / `scene.environment`. -/
structure LightingState where
  dayNightKeyframes : List Keyframe
  envMapReady : Bool
  main : Option DirLight
  ambient : Option ℚ
  hemisphere : Option ℚ
  glareMaterials : List GlareUniforms
deriving Repr, DecidableEq

/-- State after the `LightingSystem` constructor: all light references
`null`, no glare materials, the keyframe table installed. -/
def constructorState : LightingState :=
  { dayNightKeyframes := dayNightKeyframes
  , envMapReady := false
  , main := none
  , ambient := none
  , hemisphere := none
  , glareMaterials := [] }

/-- `createEnvironmentMap()`: bakes and assigns the environment texture.
It never reads the keyframe table and cannot fail. -/
def createEnvironmentMap (s : LightingState) : LightingState :=
  { s with envMapReady := true }

/-- `setupLights()`: installs the persistent rig — ambient
`(0x1a1a24, 0.35)`, hemisphere `(…, 0.25)`, main directional sun
`(0xffeedd, 0.22)` (fill and rim point lights are not referenced by any
claim and carry no day/night-mutated state beyond what is modelled). -/
def setupLights (s : LightingState) : LightingState :=
  { s with
      ambient := some 0.35
    , hemisphere := some 0.25
    , main := some ⟨Color.setHex 0xffeedd, 0.22⟩ }

/-- `init()` (`lighting.js` lines 48–55): optional
`RectAreaLightUniformsLib.init()`, then `createEnvironmentMap()`, then
`setupLights()`.  No step reads or validates `dayNightKeyframes` and no
step can throw, so the result is always `ok`. -/
def init (s : LightingState) : Except String LightingState :=
  Except.ok (setupLights (createEnvironmentMap s))

/-- The lighting state right after a successful `init()`. -/
def initializedState : LightingState :=
  setupLights (createEnvironmentMap constructorState)

/-- A keyframe table that is both unsorted and contains a duplicate
hour — a malformed table in the sense of the spec's error taxonomy. -/
def malformedKeyframes : List Keyframe :=
  [⟨7, 0xffaa77, 0.8⟩, ⟨5, 0x2a2a4e, 0.4⟩, ⟨5, 0x2a2a4e, 0.4⟩]

/-- A `LightingSystem` whose constructor-installed table is malformed. -/
def malformedState : LightingState :=
  { constructorState with dayNightKeyframes := malformedKeyframes }

/-- The bracketing-pair scan of `updateDayNightCycle` (lines 318–324):
the first adjacent pair `(a, b)` with `a.hour ≤ hour < b.hour`. -/
def scanKeyframes (hour : ℚ) : List Keyframe → Option (Keyframe × Keyframe)
  | a :: b :: rest =>
      if a.hour ≤ hour ∧ hour < b.hour then some (a, b)
      else scanKeyframes hour (b :: rest)
  | _ => none

/-- `startFrame` / `endFrame` selection of `updateDayNightCycle`
(lines 315–324): the scan result, defaulting to the first and last
table entries when no pair matches. -/
def findFrames (hour : ℚ) (kfs : List Keyframe) : Keyframe × Keyframe :=
  match scanKeyframes hour kfs with
  | some p => p
  | none => (kfs.headD defaultKeyframe, kfs.getLastD defaultKeyframe)

/-- The per-material effect of the glare-intensity propagation loop
(lines 349–352): `uLightIntensities.value[0] = mainIntensity`. -/
def setGlareWindowIntensity (mainIntensity : ℚ) (m : GlareUniforms) :
    GlareUniforms :=
  { m with uLightIntensities := { m.uLightIntensities with s0 := mainIntensity } }

/-- `updateDayNightCycle()` (lines 308–353) at wall-clock time
`hour = getHours() + getMinutes()/60`: bail out when the main light is
`null`; otherwise interpolate sun color/intensity between the bracketing
keyframes, derive ambient/hemisphere intensity, and propagate the sun
intensity into slot 0 of every glare material. -/
def updateDayNightCycle (hour : ℚ) (s : LightingState) : LightingState :=
  match s.main with
  | none => s
  | some _ =>
    let frames := findFrames hour s.dayNightKeyframes
    let startFrame := frames.1
    let endFrame := frames.2
    let t := (hour - startFrame.hour) / (endFrame.hour - startFrame.hour)
    let newColor :=
      Color.lerp (Color.setHex startFrame.color) (Color.setHex endFrame.color) t
    let mainIntensity :=
      startFrame.intensity + (endFrame.intensity - startFrame.intensity) * t
    { s with
        main := some ⟨newColor, mainIntensity⟩
      , ambient := s.ambient.map (fun _ => 0.2 + mainIntensity * 0.25)
      , hemisphere := s.hemisphere.map (fun _ => 0.1 + mainIntensity * 0.25)
      , glareMaterials := s.glareMaterials.map (setGlareWindowIntensity mainIntensity) }

/-- `updateGlare(camera)` (lines 298–302): copy the camera position into
`uCameraPosition` of every registered glare material. -/
def updateGlare (cameraPosition : Vec3) (s : LightingState) : LightingState :=
  { s with glareMaterials :=
      s.glareMaterials.map (fun m => { m with uCameraPosition := cameraPosition }) }

/-- `update(camera)` (lines 359–362): `updateDayNightCycle()` then
`updateGlare(camera)`. -/
def update (cameraPosition : Vec3) (hour : ℚ) (s : LightingState) :
    LightingState :=
  updateGlare cameraPosition (updateDayNightCycle hour s)

/-- The sun intensity currently stored on the rig (0 when the main light
is still `null`). -/
def sunIntensity (s : LightingState) : ℚ :=
  match s.main with
  | some l => l.intensity
  | none => 0

/-- An initialized lighting system with one registered glare material
(as after one `createGlareMaterial` call). -/
def demoLightingState : LightingState :=
  { initializedState with glareMaterials := [createGlareMaterial 0.35 6 2.5] }

/-- 3-component vector over `ℝ`, for the GLSL fragment shader. -/
structure RVec3 where
  x : ℝ
  y : ℝ
  z : ℝ

/-- Component-wise vector addition. -/
def RVec3.add (a b : RVec3) : RVec3 := ⟨a.x + b.x, a.y + b.y, a.z + b.z⟩

/-- Component-wise vector subtraction. -/
def RVec3.sub (a b : RVec3) : RVec3 := ⟨a.x - b.x, a.y - b.y, a.z - b.z⟩

/-- Scalar multiplication. -/
def RVec3.smul (c : ℝ) (v : RVec3) : RVec3 := ⟨c * v.x, c * v.y, c * v.z⟩

/-- GLSL `dot`. -/
def RVec3.dot (a b : RVec3) : ℝ := a.x * b.x + a.y * b.y + a.z * b.z

/-- GLSL `length`. -/
noncomputable def RVec3.length (v : RVec3) : ℝ := Real.sqrt (v.dot v)

/-- GLSL `normalize` (`v / length(v)`). -/
noncomputable def RVec3.normalize (v : RVec3) : RVec3 :=
  ⟨v.x / v.length, v.y / v.length, v.z / v.length⟩

/-- GLSL `pow` for the non-negative bases used by the shader. -/
noncomputable def glslPow (b e : ℝ) : ℝ := Real.rpow b e

/-- GLSL `clamp(x, lo, hi) = min(max(x, lo), hi)`. -/
def glslClamp (x lo hi : ℝ) : ℝ := min (max x lo) hi

/-- One light slot as seen by the glare fragment shader. -/
structure FragLight where
  position : RVec3
  color : RVec3
  intensity : ℝ

/-- All inputs of the glare fragment shader: the four light-slot
uniforms, camera position, the three tuning knobs, and the interpolated
surface position and normal. -/
structure FragInput where
  lights : Slots4 FragLight
  uCameraPosition : RVec3
  uGlareIntensity : ℝ
  uGlareSharpness : ℝ
  uFresnelPower : ℝ
  vWorldPosition : RVec3
  vWorldNormal : RVec3

/-- One iteration of the shader's light loop (`lighting.js`
lines 239–253): Blinn-Phong specular times intensity times
inverse-quadratic attenuation, skipped when the slot intensity is not
positive. -/
noncomputable def lightContribution (worldPos viewDir normal : RVec3)
    (sharpness : ℝ) (l : FragLight) : RVec3 :=
  if l.intensity > 0 then
    let lightDir := (l.position.sub worldPos).normalize
    let halfDir := (lightDir.add viewDir).normalize
    let spec := glslPow (max (normal.dot halfDir) 0) (sharpness * 10)
    let dist := (l.position.sub worldPos).length
    let atten := 1 / (1 + 0.05 * dist + 0.01 * dist * dist)
    RVec3.smul (spec * l.intensity * atten) l.color
  else ⟨0, 0, 0⟩

/-- The glare fragment shader (`lighting.js` lines 216–264): Fresnel rim
term, summed per-light contributions, and the output `(color, alpha)`
with `alpha = clamp(length(glareColor)*uGlareIntensity + fresnel*0.08,
0.0, 0.7)`. -/
noncomputable def glareFragment (inp : FragInput) : RVec3 × ℝ :=
  let viewDir := (inp.uCameraPosition.sub inp.vWorldPosition).normalize
  let normal := inp.vWorldNormal.normalize
  let fresnel := glslPow (1 - max (viewDir.dot normal) 0) inp.uFresnelPower
  let contrib := lightContribution inp.vWorldPosition viewDir normal inp.uGlareSharpness
  let glareColor :=
    ((((⟨0, 0, 0⟩ : RVec3).add (contrib inp.lights.s0)).add
        (contrib inp.lights.s1)).add (contrib inp.lights.s2)).add
      (contrib inp.lights.s3)
  let alpha :=
    glslClamp (glareColor.length * inp.uGlareIntensity + fresnel * 0.08) 0 0.7
  let finalColor := glareColor.add (RVec3.smul (fresnel * 0.05) ⟨0.9, 0.95, 1.0⟩)
  (finalColor, alpha)

/-- 4-component vector over `ℚ` (texel values in the overlay shader). -/
structure Vec4 where
  x : ℚ
  y : ℚ
  z : ℚ
  w : ℚ
deriving Repr, DecidableEq

/-- Component-wise `vec4` addition. -/
def Vec4.add (a b : Vec4) : Vec4 := ⟨a.x + b.x, a.y + b.y, a.z + b.z, a.w + b.w⟩

/-- Scalar times `vec4`. -/
def Vec4.scale (c : ℚ) (v : Vec4) : Vec4 := ⟨c * v.x, c * v.y, c * v.z, c * v.w⟩

/-- The two three.js blending modes relevant here. -/
inductive BlendingMode
  | normalBlending
  | additiveBlending
deriving Repr, DecidableEq

/-- A `ShaderMaterial` used as the outline pass's overlay: the declared
uniform slots, the per-pixel fragment program (as a function of the
sampled `maskTexture`, `edgeTexture1`, `edgeTexture2`, `patternTexture`
values and the `edgeStrength`, `edgeGlow`, `usePatternTexture` scalars),
and the blending / depth flags. -/
structure OverlayMaterial where
  uniformNames : List String
  fragment : Vec4 → Vec4 → Vec4 → Vec4 → ℚ → ℚ → ℚ → Vec4
  blending : BlendingMode
  depthTest : Bool
  depthWrite : Bool
  transparent : Bool

/-- The replacement `overlayMaterial` installed on the outline pass in
`setupPostProcessing` (`scene.js` lines 190–223).  The fragment program
reads only `edgeTexture1`, `edgeTexture2`, `edgeStrength` and
`edgeGlow`; the mask and pattern samples are declared but ignored. -/
def overlayMaterial : OverlayMaterial :=
  { uniformNames :=
      [ "maskTexture", "edgeTexture1", "edgeTexture2", "patternTexture"
      , "edgeStrength", "edgeGlow", "usePatternTexture" ]
  , fragment := fun _maskSample edge1 edge2 _patternSample edgeStrength edgeGlow
      _usePatternFlag =>
      Vec4.scale edgeStrength (Vec4.add edge1 (Vec4.scale edgeGlow edge2))
  , blending := BlendingMode.additiveBlending
  , depthTest := false
  , depthWrite := false
  , transparent := true }

/-- Observable state of the wired `OutlinePass`: enabled flag and
current `edgeStrength`. -/
structure OutlinePassState where
  enabled : Bool
  edgeStrength : ℚ
deriving Repr, DecidableEq

/-- The two GSAP eases used by the hint scheduler. -/
inductive Ease
  | power1Out
  | power1In
deriving Repr, DecidableEq

/-- A GSAP tween on `outlinePass.edgeStrength` created by `gsap.to`:
start value (captured from the current property value), target value,
duration in seconds, ease, and whether its `onComplete` callback
disables the pass and clears `hintActive` (the `hideHint` tween). -/
structure Tween where
  fromVal : ℚ
  toVal : ℚ
  duration : ℚ
  ease : Ease
  disablesOnComplete : Bool
deriving Repr, DecidableEq

/-- Hint-related state of the `InteractionManager` together with its
browser environment: the wired outline pass, the zoom target, the
`hintActive` flag, the stored `hintTimer` handle, the environment's
fresh-handle counter and list of pending (uncancelled, unfired) timers,
and the list of GSAP tweens currently active on `edgeStrength`. -/
structure HintState where
  outlinePass : Option OutlinePassState
  currentZoomedObject : Option ℕ
  hintActive : Bool
  hintTimer : Option ℕ
  nextTimerId : ℕ
  pendingTimers : List (ℕ × ℚ)
  activeTweens : List Tween
deriving Repr, DecidableEq

/-- `this.HINT_DELAY = 5000` (milliseconds). -/
def HINT_DELAY : ℚ := 5000

/-- State after the `InteractionManager` constructor (part_003
lines 30–34): no outline pass wired, no timer, hint inactive. -/
def initialHintState : HintState :=
  { outlinePass := none
  , currentZoomedObject := none
  , hintActive := false
  , hintTimer := none
  , nextTimerId := 0
  , pendingTimers := []
  , activeTweens := [] }

/-- The outline pass as configured in `setupPostProcessing` before
wiring: disabled, `edgeStrength = 2.0`. -/
def sceneOutlinePass : OutlinePassState := { enabled := false, edgeStrength := 2 }

/-- Browser `clearTimeout(id)`: drop the pending entry with that
handle. -/
def clearTimeout (id : ℕ) (pending : List (ℕ × ℚ)) : List (ℕ × ℚ) :=
  pending.filter (fun q => q.1 != id)

/-- `startHintTimer()` (part_003 lines 427–432): `clearTimeout` the
stored handle if any, then `setTimeout(() => showHint(), HINT_DELAY)`
and store the fresh handle. -/
def startHintTimer (s : HintState) : HintState :=
  let pending :=
    match s.hintTimer with
    | some id => clearTimeout id s.pendingTimers
    | none => s.pendingTimers
  { s with
      hintTimer := some s.nextTimerId
    , pendingTimers := pending ++ [(s.nextTimerId, HINT_DELAY)]
    , nextTimerId := s.nextTimerId + 1 }

/-- The current value of `outlinePass.edgeStrength` (0 if no pass). -/
def currentEdgeStrength (s : HintState) : ℚ :=
  (s.outlinePass.map OutlinePassState.edgeStrength).getD 0

/-- `showHint()` (part_003 lines 437–449): bail out if no pass is wired
or an object is zoomed; otherwise set `hintActive`, reset
`edgeStrength` to 0, enable the pass, and start the 2 s `power1.out`
fade-in tween toward `edgeStrength = 2.0`. -/
def showHint (s : HintState) : HintState :=
  if s.outlinePass.isNone || s.currentZoomedObject.isSome then s
  else
    { s with
        hintActive := true
      , outlinePass :=
          s.outlinePass.map (fun p => { p with edgeStrength := 0, enabled := true })
      , activeTweens := s.activeTweens ++ [⟨0, 2, 2, Ease.power1Out, false⟩] }

/-- `hideHint()` (part_003 lines 454–466): bail out if no pass is wired
or the hint is not active; otherwise start a 1 s `power1.in` tween from
the current `edgeStrength` to 0 whose `onComplete` disables the pass and
clears `hintActive`.  No existing tween is killed (GSAP 3 default
`overwrite: false`). -/
def hideHint (s : HintState) : HintState :=
  if s.outlinePass.isNone || !s.hintActive then s
  else
    { s with activeTweens :=
        s.activeTweens ++ [⟨currentEdgeStrength s, 0, 1, Ease.power1In, true⟩] }

/-- `setOutlinePass(outlinePass, interactiveObjects)` (part_003
lines 418–422): store the pass and start the idle timer. -/
def setOutlinePass (p : OutlinePassState) (s : HintState) : HintState :=
  startHintTimer { s with outlinePass := some p }

/-- The hint-relevant effect of an accepted object click in
`onMouseClick` (part_003 lines 190–208): `hideHint()`, then
`startHintTimer()`, then zoom bookkeeping (`zoomToObject` sets
`currentZoomedObject`; clicking the already-zoomed object starts
`resetCamera`, whose completion is a separate event). -/
def selectObject (obj : ℕ) (s : HintState) : HintState :=
  let s1 := startHintTimer (hideHint s)
  match s1.currentZoomedObject with
  | some o => if o == obj then s1 else { s1 with currentZoomedObject := some obj }
  | none => { s1 with currentZoomedObject := some obj }

/-- The `onComplete` callback of `resetCamera`'s controls-target tween
(part_003 lines 316–322): clear `currentZoomedObject` and restart the
idle timer. -/
def resetCameraComplete (s : HintState) : HintState :=
  startHintTimer { s with currentZoomedObject := none }

/-- The environment fires a pending timer: its entry leaves the pending
list and its callback — always `() => showHint()` here — runs. -/
def fireTimer (s : HintState) : HintState :=
  match s.pendingTimers with
  | [] => s
  | _ :: rest => showHint { s with pendingTimers := rest }

/-- A GSAP tween finishes: its final tick writes `toVal` into
`edgeStrength`, it leaves the active list, and its `onComplete` runs
(for the `hideHint` tween: disable the pass, clear `hintActive`). -/
def completeTween (i : ℕ) (s : HintState) : HintState :=
  match s.activeTweens[i]? with
  | none => s
  | some tw =>
    let s1 :=
      { s with
          activeTweens := s.activeTweens.eraseIdx i
        , outlinePass := s.outlinePass.map (fun p => { p with edgeStrength := tw.toVal }) }
    if tw.disablesOnComplete then
      { s1 with
          outlinePass := s1.outlinePass.map (fun p => { p with enabled := false })
        , hintActive := false }
    else s1

/-- The events that touch hint state. -/
inductive HintEvent
  | wire
  | select (obj : ℕ)
  | resetComplete
  | timerFire
  | tweenComplete (i : ℕ)
deriving Repr, DecidableEq

/-- Event dispatch. -/
def step (s : HintState) : HintEvent → HintState
  | HintEvent.wire => setOutlinePass sceneOutlinePass s
  | HintEvent.select obj => selectObject obj s
  | HintEvent.resetComplete => resetCameraComplete s
  | HintEvent.timerFire => fireTimer s
  | HintEvent.tweenComplete i => completeTween i s

/-- Timer invariant: either no timer is pending, or exactly the stored
handle is pending, with the fixed 5000 ms delay. -/
def timerInv (s : HintState) : Prop :=
  s.pendingTimers = [] ∨
    ∃ id, s.hintTimer = some id ∧ s.pendingTimers = [(id, HINT_DELAY)]

/-- Whether the outline pass is currently enabled (false if unwired). -/
def passEnabled (s : HintState) : Bool :=
  (s.outlinePass.map OutlinePassState.enabled).getD false

/-- Wire the pass, let the idle timer fire (hint fades in), then click
an object while the fade-in tween is still active. -/
def hintTrace : List HintEvent :=
  [HintEvent.wire, HintEvent.timerFire, HintEvent.select 5]

/-- A state mid fade-in: hint active, pass enabled with `edgeStrength`
at 1, the fade-in tween still active. -/
def midFadeInState : HintState :=
  { outlinePass := some ⟨true, 1⟩
  , currentZoomedObject := none
  , hintActive := true
  , hintTimer := some 0
  , nextTimerId := 1
  , pendingTimers := []
  , activeTweens := [⟨0, 2, 2, Ease.power1Out, false⟩] }

/-- A state zoomed on an object with a timer pending. -/
def zoomedState : HintState :=
  { outlinePass := some ⟨false, 2⟩
  , currentZoomedObject := some 4
  , hintActive := false
  , hintTimer := some 0
  , nextTimerId := 1
  , pendingTimers := []
  , activeTweens := [] }

/-! Theorems. -/

lemma ff0 (t : ℚ) (h1 : 0 ≤ t) (h2 : t < 5) :
    findFrames t dayNightKeyframes = (⟨0, 0x1a1a2e, 0.3⟩, ⟨5, 0x2a2a4e, 0.4⟩) := by
  simp only [findFrames, dayNightKeyframes, scanKeyframes]
  rw [if_pos ⟨h1, h2⟩]

lemma ff1 (t : ℚ) (h1 : 5 ≤ t) (h2 : t < 7) :
    findFrames t dayNightKeyframes = (⟨5, 0x2a2a4e, 0.4⟩, ⟨7, 0xffaa77, 0.8⟩) := by
  simp only [findFrames, dayNightKeyframes, scanKeyframes]
  rw [if_neg (by rintro ⟨-, hlt⟩; linarith), if_pos ⟨h1, h2⟩]

lemma ff2 (t : ℚ) (h1 : 7 ≤ t) (h2 : t < 10) :
    findFrames t dayNightKeyframes = (⟨7, 0xffaa77, 0.8⟩, ⟨10, 0xffeedd, 1.2⟩) := by
  simp only [findFrames, dayNightKeyframes, scanKeyframes]
  rw [if_neg (by rintro ⟨-, hlt⟩; linarith),
      if_neg (by rintro ⟨-, hlt⟩; linarith), if_pos ⟨h1, h2⟩]

lemma ff3 (t : ℚ) (h1 : 10 ≤ t) (h2 : t < 16) :
    findFrames t dayNightKeyframes = (⟨10, 0xffeedd, 1.2⟩, ⟨16, 0xffeedd, 1.1⟩) := by
  simp only [findFrames, dayNightKeyframes, scanKeyframes]
  rw [if_neg (by rintro ⟨-, hlt⟩; linarith),
      if_neg (by rintro ⟨-, hlt⟩; linarith),
      if_neg (by rintro ⟨-, hlt⟩; linarith), if_pos ⟨h1, h2⟩]

lemma ff4 (t : ℚ) (h1 : 16 ≤ t) (h2 : t < 19) :
    findFrames t dayNightKeyframes = (⟨16, 0xffeedd, 1.1⟩, ⟨19, 0xff9966, 0.7⟩) := by
  simp only [findFrames, dayNightKeyframes, scanKeyframes]
  rw [if_neg (by rintro ⟨-, hlt⟩; linarith),
      if_neg (by rintro ⟨-, hlt⟩; linarith),
      if_neg (by rintro ⟨-, hlt⟩; linarith),
      if_neg (by rintro ⟨-, hlt⟩; linarith), if_pos ⟨h1, h2⟩]

lemma ff5 (t : ℚ) (h1 : 19 ≤ t) (h2 : t < 21) :
    findFrames t dayNightKeyframes = (⟨19, 0xff9966, 0.7⟩, ⟨21, 0x1a1a2e, 0.35⟩) := by
  simp only [findFrames, dayNightKeyframes, scanKeyframes]
  rw [if_neg (by rintro ⟨-, hlt⟩; linarith),
      if_neg (by rintro ⟨-, hlt⟩; linarith),
      if_neg (by rintro ⟨-, hlt⟩; linarith),
      if_neg (by rintro ⟨-, hlt⟩; linarith),
      if_neg (by rintro ⟨-, hlt⟩; linarith), if_pos ⟨h1, h2⟩]

lemma ff6 (t : ℚ) (h1 : 21 ≤ t) (h2 : t < 24) :
    findFrames t dayNightKeyframes = (⟨21, 0x1a1a2e, 0.35⟩, ⟨24, 0x1a1a2e, 0.3⟩) := by
  simp only [findFrames, dayNightKeyframes, scanKeyframes]
  rw [if_neg (by rintro ⟨-, hlt⟩; linarith),
      if_neg (by rintro ⟨-, hlt⟩; linarith),
      if_neg (by rintro ⟨-, hlt⟩; linarith),
      if_neg (by rintro ⟨-, hlt⟩; linarith),
      if_neg (by rintro ⟨-, hlt⟩; linarith),
      if_neg (by rintro ⟨-, hlt⟩; linarith), if_pos ⟨h1, h2⟩]

lemma findFrames_bracket (t : ℚ) (i : ℕ) (hi : i + 1 < dayNightKeyframes.length)
    (h1 : (dayNightKeyframes.getD i defaultKeyframe).hour ≤ t)
    (h2 : t < (dayNightKeyframes.getD (i + 1) defaultKeyframe).hour) :
    findFrames t dayNightKeyframes =
      (dayNightKeyframes.getD i defaultKeyframe,
       dayNightKeyframes.getD (i + 1) defaultKeyframe) := by
  have h8 : dayNightKeyframes.length = 8 := rfl
  rw [h8] at hi
  have hi7 : i < 7 := by omega
  interval_cases i
  · exact ff0 t h1 h2
  · exact ff1 t h1 h2
  · exact ff2 t h1 h2
  · exact ff3 t h1 h2
  · exact ff4 t h1 h2
  · exact ff5 t h1 h2
  · exact ff6 t h1 h2

/-- C1: for every wall-clock time `t` bracketed by adjacent keyframes
`k_i.hour ≤ t < k_{i+1}.hour`, `updateDayNightCycle` sets the sun's
intensity to `k_i.intensity + (k_{i+1}.intensity - k_i.intensity) * f`
and its color to the channel-wise lerp of the two keyframe colors, with
`f = (t - k_i.hour) / (k_{i+1}.hour - k_i.hour)`. -/
theorem sun_keyframe_interpolation (t : ℚ) (i : ℕ)
    (hi : i + 1 < dayNightKeyframes.length)
    (h1 : (dayNightKeyframes.getD i defaultKeyframe).hour ≤ t)
    (h2 : t < (dayNightKeyframes.getD (i + 1) defaultKeyframe).hour)
    (s : LightingState) (hkf : s.dayNightKeyframes = dayNightKeyframes)
    (l : DirLight) (hm : s.main = some l) :
    (updateDayNightCycle t s).main =
      some ⟨Color.lerp
              (Color.setHex (dayNightKeyframes.getD i defaultKeyframe).color)
              (Color.setHex (dayNightKeyframes.getD (i + 1) defaultKeyframe).color)
              ((t - (dayNightKeyframes.getD i defaultKeyframe).hour) /
                ((dayNightKeyframes.getD (i + 1) defaultKeyframe).hour -
                  (dayNightKeyframes.getD i defaultKeyframe).hour)),
            (dayNightKeyframes.getD i defaultKeyframe).intensity +
              ((dayNightKeyframes.getD (i + 1) defaultKeyframe).intensity -
                (dayNightKeyframes.getD i defaultKeyframe).intensity) *
              ((t - (dayNightKeyframes.getD i defaultKeyframe).hour) /
                ((dayNightKeyframes.getD (i + 1) defaultKeyframe).hour -
                  (dayNightKeyframes.getD i defaultKeyframe).hour))⟩ := by
  have hf := findFrames_bracket t i hi h1 h2
  simp only [updateDayNightCycle, hm, hkf, hf]

/-- Witness for C1 at `t = 6`, bracketed by the hour-5 and hour-7
keyframes: the sun intensity becomes `3/5 = 0.6` and the color the
half-way lerp of the two keyframe colors. -/
theorem sun_keyframe_interpolation_witness :
    (updateDayNightCycle 6 initializedState).main =
      some ⟨Color.lerp (Color.setHex 0x2a2a4e) (Color.setHex 0xffaa77) (1/2), 3/5⟩ := by
  have h := sun_keyframe_interpolation 6 1 (by decide) (by decide) (by decide)
    initializedState rfl ⟨Color.setHex 0xffeedd, 0.22⟩ rfl
  rw [h]
  norm_num [dayNightKeyframes, defaultKeyframe]

/-- C2: for every camera position, surface point, surface normal, knob
values and light-slot configuration, the alpha output by the glare
fragment shader lies in `[0, 0.7]` (the final `clamp` guarantees it
unconditionally, so in particular for non-negative intensities). -/
theorem glare_alpha_bounded (inp : FragInput) :
    0 ≤ (glareFragment inp).2 ∧ (glareFragment inp).2 ≤ 0.7 := by
  simp only [glareFragment, glslClamp]
  exact ⟨le_min (le_max_right _ _) (by norm_num), min_le_right _ _⟩

/-- C3: the replacement overlay material declares all seven uniform
slots the pass's render step writes — `maskTexture`, `edgeTexture1`,
`edgeTexture2`, `patternTexture`, `edgeStrength`, `edgeGlow`,
`usePatternTexture` — its fragment output is
`edgeStrength * (edgeTexture1 + edgeTexture2 * edgeGlow)` with no mask
multiplication (it is independent of the mask sample), and it uses
additive blending with depth test and depth write disabled. -/
theorem overlay_material_spec :
    overlayMaterial.uniformNames =
      [ "maskTexture", "edgeTexture1", "edgeTexture2", "patternTexture"
      , "edgeStrength", "edgeGlow", "usePatternTexture" ] ∧
    (∀ maskSample edge1 edge2 patternSample edgeStrength edgeGlow usePatternFlag,
      overlayMaterial.fragment maskSample edge1 edge2 patternSample
          edgeStrength edgeGlow usePatternFlag =
        Vec4.scale edgeStrength (Vec4.add edge1 (Vec4.scale edgeGlow edge2))) ∧
    overlayMaterial.blending = BlendingMode.additiveBlending ∧
    overlayMaterial.depthTest = false ∧
    overlayMaterial.depthWrite = false :=
  ⟨rfl, fun _ _ _ _ _ _ _ => rfl, rfl, rfl, rfl⟩

/-- C4 counterexample: wire the pass, let the hint fade in, then select
an object while the fade-in tween is in flight.  `hideHint` starts the
fade-out without killing the fade-in (GSAP 3 default
`overwrite: false`), so afterwards BOTH tweens are simultaneously active
on `edgeStrength` — the in-flight fade-in is neither cancelled nor
replaced, contradicting the claim that two fade animations never race. -/
theorem fade_in_not_cancelled :
    (hintTrace.foldl step initialHintState).activeTweens =
      [⟨0, 2, 2, Ease.power1Out, false⟩, ⟨0, 0, 1, Ease.power1In, true⟩] ∧
    (hintTrace.foldl step initialHintState).activeTweens.length = 2 := by
  decide

lemma selectObject_tweens (obj : ℕ) (s : HintState) :
    (selectObject obj s).activeTweens = (hideHint s).activeTweens := by
  simp only [selectObject]
  cases (startHintTimer (hideHint s)).currentZoomedObject with
  | none => rfl
  | some o =>
    dsimp only
    split_ifs <;> rfl

lemma completeTween_disables (s : HintState) (i : ℕ) (tw : Tween)
    (hget : s.activeTweens[i]? = some tw) (hd : tw.disablesOnComplete = true) :
    passEnabled (completeTween i s) = false ∧
    (completeTween i s).hintActive = false := by
  simp only [completeTween, hget]
  rw [if_pos hd]
  cases s.outlinePass <;> simp [passEnabled]

/-- C4 amended: on an accepted selection while the hint is active, a
fade-out tween is created animating `edgeStrength` from its current
value (not a reset value) to 0 over 1 s with `power1.in`, and when that
tween completes the pass is disabled and `hintActive` cleared; however,
the fade-out is appended to the active tween list without cancelling or
replacing any in-flight fade-in tween. -/
theorem hideHint_fades_from_current (s : HintState) (p : OutlinePassState)
    (hp : s.outlinePass = some p) (ha : s.hintActive = true) (obj : ℕ) :
    (selectObject obj s).activeTweens =
      s.activeTweens ++ [⟨p.edgeStrength, 0, 1, Ease.power1In, true⟩] ∧
    (∀ i : ℕ, ∀ tw : Tween,
      (selectObject obj s).activeTweens[i]? = some tw →
      tw.disablesOnComplete = true →
      passEnabled (completeTween i (selectObject obj s)) = false ∧
      (completeTween i (selectObject obj s)).hintActive = false) := by
  constructor
  · rw [selectObject_tweens]
    simp [hideHint, hp, ha, currentEdgeStrength]
  · intro i tw hget hd
    exact completeTween_disables _ i tw hget hd

/-- Witness for the amended C4 at a concrete mid-fade-in state with
`edgeStrength = 1`: the fade-out tween starts at 1 (not at a reset
value), the fade-in tween stays in the list, and completing the
fade-out disables the pass and clears `hintActive`. -/
theorem hideHint_fades_from_current_witness :
    (selectObject 3 midFadeInState).activeTweens =
      [⟨0, 2, 2, Ease.power1Out, false⟩, ⟨1, 0, 1, Ease.power1In, true⟩] ∧
    passEnabled (completeTween 1 (selectObject 3 midFadeInState)) = false ∧
    (completeTween 1 (selectObject 3 midFadeInState)).hintActive = false := by
  have h := hideHint_fades_from_current midFadeInState ⟨true, 1⟩ rfl rfl 3
  have h2 := h.2 1 ⟨1, 0, 1, Ease.power1In, true⟩ (by decide) rfl
  exact ⟨h.1.trans (by decide), h2.1, h2.2⟩

lemma timerInv_startHintTimer (s : HintState) (h : timerInv s) :
    timerInv (startHintTimer s) := by
  rcases h with h | ⟨id, hid, hp⟩
  · right
    refine ⟨s.nextTimerId, rfl, ?_⟩
    simp only [startHintTimer, h]
    cases s.hintTimer <;> simp [clearTimeout]
  · right
    refine ⟨s.nextTimerId, rfl, ?_⟩
    simp [startHintTimer, hid, hp, clearTimeout]

lemma timerInv_showHint (s : HintState) (h : timerInv s) :
    timerInv (showHint s) := by
  simp only [showHint]
  split_ifs <;> simpa [timerInv]

lemma timerInv_hideHint (s : HintState) (h : timerInv s) :
    timerInv (hideHint s) := by
  simp only [hideHint]
  split_ifs <;> simpa [timerInv]

lemma timerInv_step (s : HintState) (e : HintEvent) (h : timerInv s) :
    timerInv (step s e) := by
  cases e with
  | wire =>
    exact timerInv_startHintTimer _ (by simpa [timerInv] using h)
  | select obj =>
    have h1 := timerInv_startHintTimer _ (timerInv_hideHint s h)
    simp only [step, selectObject]
    cases hz : (startHintTimer (hideHint s)).currentZoomedObject with
    | none => simpa [timerInv] using h1
    | some o =>
      simp only [hz]
      split_ifs <;> simpa [timerInv] using h1
  | resetComplete =>
    exact timerInv_startHintTimer _ (by simpa [timerInv] using h)
  | timerFire =>
    simp only [step, fireTimer]
    cases hp : s.pendingTimers with
    | nil => simpa [timerInv] using h
    | cons q rest =>
      apply timerInv_showHint
      rcases h with h | ⟨id, hid, h⟩ <;> rw [hp] at h
      · exact absurd h (by simp)
      · left
        simpa using congrArg List.tail h
  | tweenComplete i =>
    simp only [step, completeTween]
    cases s.activeTweens[i]? with
    | none => exact h
    | some tw =>
      dsimp only
      split_ifs <;> simpa [timerInv] using h

lemma timerInv_run (es : List HintEvent) (s : HintState) (h : timerInv s) :
    timerInv (es.foldl step s) := by
  induction es generalizing s with
  | nil => exact h
  | cons e es ih => exact ih _ (timerInv_step s e h)

lemma hideHint_timer_fields (s : HintState) :
    (hideHint s).hintTimer = s.hintTimer ∧
    (hideHint s).pendingTimers = s.pendingTimers ∧
    (hideHint s).nextTimerId = s.nextTimerId := by
  simp only [hideHint]
  split_ifs <;> exact ⟨rfl, rfl, rfl⟩

lemma selectObject_timer_fields (obj : ℕ) (s : HintState) :
    (selectObject obj s).hintTimer = (startHintTimer (hideHint s)).hintTimer ∧
    (selectObject obj s).pendingTimers =
      (startHintTimer (hideHint s)).pendingTimers := by
  simp only [selectObject]
  cases (startHintTimer (hideHint s)).currentZoomedObject with
  | none => exact ⟨rfl, rfl⟩
  | some o =>
    dsimp only
    split_ifs <;> exact ⟨rfl, rfl⟩

/-- C5: along every event trace from the constructor state at most one
idle timer is pending, and every pending timer carries the fixed
5000 ms delay; moreover `startHintTimer` always cancels the stored
handle before scheduling a fresh single-shot timer, and both an
accepted object selection and a camera-reset completion restart the
timer (a fresh handle is stored and its entry is pending afterwards). -/
theorem hint_timer_single_shot (es : List HintEvent) (s0 : HintState) (obj : ℕ) :
    ((es.foldl step initialHintState).pendingTimers.length ≤ 1 ∧
      (es.foldl step initialHintState).pendingTimers.all
        (fun q => q.2 == HINT_DELAY) = true) ∧
    (startHintTimer s0).pendingTimers =
      (match s0.hintTimer with
        | some id => clearTimeout id s0.pendingTimers
        | none => s0.pendingTimers) ++ [(s0.nextTimerId, HINT_DELAY)] ∧
    (selectObject obj s0).hintTimer = some s0.nextTimerId ∧
    (s0.nextTimerId, HINT_DELAY) ∈ (selectObject obj s0).pendingTimers ∧
    (resetCameraComplete s0).hintTimer = some s0.nextTimerId ∧
    (s0.nextTimerId, HINT_DELAY) ∈ (resetCameraComplete s0).pendingTimers := by
  have hh := hideHint_timer_fields s0
  have hsel := selectObject_timer_fields obj s0
  refine ⟨?_, rfl, ?_, ?_, rfl, by simp [resetCameraComplete, startHintTimer]⟩
  · have h := timerInv_run es initialHintState (Or.inl rfl)
    rcases h with h | ⟨id, _, h⟩ <;> rw [h] <;> simp [HINT_DELAY]
  · rw [hsel.1]
    simp [startHintTimer, hh.2.2]
  · rw [hsel.2]
    simp [startHintTimer, hh.2.2]

/-- C6 counterexample: on a malformed keyframe table (unsorted and with
a duplicate hour) `init()` still succeeds — initialization does not
fail fast with a developer-visible error. -/
theorem init_accepts_malformed_table :
    hoursStrictlySorted malformedKeyframes = false ∧
    (init malformedState).isOk = true := by
  exact ⟨rfl, rfl⟩

/-- C6 amended: the keyframe table is never validated — `init()`
succeeds for every table, malformed or not; the hard-coded table does
satisfy the strictly-increasing-hours invariant, so interpolation is
well defined in practice. -/
theorem init_no_validation :
    (∀ s : LightingState, (init s).isOk = true) ∧
    hoursStrictlySorted dayNightKeyframes = true :=
  ⟨fun _ => rfl, by decide⟩

/-- C7: the day/night update is idempotent — running
`updateDayNightCycle` twice at the same wall-clock instant yields
exactly the same light state (sun color and intensity, ambient and
hemisphere intensity, and every glare material's window slot) as
running it once. -/
theorem dayNight_idempotent (hour : ℚ) (s : LightingState) :
    updateDayNightCycle hour (updateDayNightCycle hour s) =
      updateDayNightCycle hour s := by
  cases s with
  | mk kfs env main amb hemi glare =>
    cases main with
    | none => rfl
    | some l =>
      simp only [updateDayNightCycle, Option.map_map, List.map_map]
      congr 1

/-- C8: for every wall-clock time `t ∈ [0, 24)` the bracketing-pair scan
over the concrete keyframe table selects a pair with a non-zero hour
difference, so the interpolation-factor division never divides by
zero. -/
theorem scan_nonzero (t : ℚ) (h0 : 0 ≤ t) (h24 : t < 24) :
    (findFrames t dayNightKeyframes).2.hour -
      (findFrames t dayNightKeyframes).1.hour ≠ 0 := by
  simp only [findFrames, dayNightKeyframes, scanKeyframes]
  split_ifs <;> norm_num

/-- Witness for C8 at `t = 6`. -/
theorem scan_nonzero_witness :
    (0 : ℚ) ≤ 6 ∧ (6 : ℚ) < 24 ∧
    ((findFrames 6 dayNightKeyframes).2.hour -
      (findFrames 6 dayNightKeyframes).1.hour ≠ 0) :=
  ⟨by norm_num, by norm_num, scan_nonzero 6 (by norm_num) (by norm_num)⟩

lemma getD_map_lt {α β : Type} (f : α → β) (l : List α) (i : ℕ) (d : α) (d' : β)
    (h : i < l.length) : (l.map f).getD i d' = f (l.getD i d) := by
  rw [List.getD_eq_getElem _ _ (by simpa using h), List.getD_eq_getElem _ _ h,
    List.getElem_map]

/-- C9: after a per-frame `update(camera)` call every registered glare
material has its camera-position uniform equal to the camera position
and its intensity slot 0 equal to the sun's current intensity, while
its light positions, light colors and intensity slots 1–3 are unchanged
from before the call. -/
theorem glare_uniform_refresh (hour : ℚ) (cam : Vec3) (s : LightingState)
    (l : DirLight) (hm : s.main = some l) (i : ℕ)
    (hi : i < s.glareMaterials.length) :
    (update cam hour s).glareMaterials.length = s.glareMaterials.length ∧
    ((update cam hour s).glareMaterials.getD i defaultGlare).uCameraPosition = cam ∧
    ((update cam hour s).glareMaterials.getD i defaultGlare).uLightIntensities.s0 =
      sunIntensity (update cam hour s) ∧
    ((update cam hour s).glareMaterials.getD i defaultGlare).uLightPositions =
      (s.glareMaterials.getD i defaultGlare).uLightPositions ∧
    ((update cam hour s).glareMaterials.getD i defaultGlare).uLightColors =
      (s.glareMaterials.getD i defaultGlare).uLightColors ∧
    ((update cam hour s).glareMaterials.getD i defaultGlare).uLightIntensities.s1 =
      (s.glareMaterials.getD i defaultGlare).uLightIntensities.s1 ∧
    ((update cam hour s).glareMaterials.getD i defaultGlare).uLightIntensities.s2 =
      (s.glareMaterials.getD i defaultGlare).uLightIntensities.s2 ∧
    ((update cam hour s).glareMaterials.getD i defaultGlare).uLightIntensities.s3 =
      (s.glareMaterials.getD i defaultGlare).uLightIntensities.s3 := by
  cases s with
  | mk kfs env main amb hemi glare =>
    cases main with
    | some l' =>
      simp only [update, updateGlare, updateDayNightCycle, List.map_map,
        sunIntensity]
      simp only [List.length_map] at hi ⊢
      refine ⟨trivial, ?_, ?_, ?_, ?_, ?_, ?_, ?_⟩ <;>
        rw [getD_map_lt _ _ _ defaultGlare _ hi] <;> rfl
    | none => exact absurd hm (by simp)

/-- Witness for C9: one registered glare material, updated at noon with
the camera at `(1, 2, 3)`. -/
theorem glare_uniform_refresh_witness :
    (update ⟨1, 2, 3⟩ 12 demoLightingState).glareMaterials.length =
      demoLightingState.glareMaterials.length ∧
    ((update ⟨1, 2, 3⟩ 12 demoLightingState).glareMaterials.getD 0 defaultGlare).uCameraPosition = ⟨1, 2, 3⟩ ∧
    ((update ⟨1, 2, 3⟩ 12 demoLightingState).glareMaterials.getD 0 defaultGlare).uLightIntensities.s0 =
      sunIntensity (update ⟨1, 2, 3⟩ 12 demoLightingState) ∧
    ((update ⟨1, 2, 3⟩ 12 demoLightingState).glareMaterials.getD 0 defaultGlare).uLightPositions =
      (demoLightingState.glareMaterials.getD 0 defaultGlare).uLightPositions ∧
    ((update ⟨1, 2, 3⟩ 12 demoLightingState).glareMaterials.getD 0 defaultGlare).uLightColors =
      (demoLightingState.glareMaterials.getD 0 defaultGlare).uLightColors ∧
    ((update ⟨1, 2, 3⟩ 12 demoLightingState).glareMaterials.getD 0 defaultGlare).uLightIntensities.s1 =
      (demoLightingState.glareMaterials.getD 0 defaultGlare).uLightIntensities.s1 ∧
    ((update ⟨1, 2, 3⟩ 12 demoLightingState).glareMaterials.getD 0 defaultGlare).uLightIntensities.s2 =
      (demoLightingState.glareMaterials.getD 0 defaultGlare).uLightIntensities.s2 ∧
    ((update ⟨1, 2, 3⟩ 12 demoLightingState).glareMaterials.getD 0 defaultGlare).uLightIntensities.s3 =
      (demoLightingState.glareMaterials.getD 0 defaultGlare).uLightIntensities.s3 :=
  glare_uniform_refresh 12 ⟨1, 2, 3⟩ demoLightingState
    ⟨Color.setHex 0xffeedd, 0.22⟩ rfl 0 (by decide)

/-- C10: if the hint timer fires while an object is zoomed
(`currentZoomedObject` non-null) or no outline pass has been wired, the
`showHint` callback leaves the state completely unchanged — the pass is
not enabled, `edgeStrength` is not reset, and `hintActive` keeps its
value (false in particular). -/
theorem showHint_noop_when_zoomed (s : HintState)
    (h : s.outlinePass = none ∨ s.currentZoomedObject.isSome = true) :
    showHint s = s := by
  rcases h with h | h <;> simp [showHint, h]

/-- Witness for C10 at a concrete state zoomed on an object. -/
theorem showHint_noop_when_zoomed_witness :
    showHint zoomedState = zoomedState :=
  showHint_noop_when_zoomed zoomedState (Or.inr rfl)

end DeskPortfolio
